import Mathlib

/-
Verification of the toe_ai backend orchestration core against its
specification.  The definitions below are a shallow embedding of the
Python source:

  * backend/app/core/database.py   — usage admission gate
    (DatabaseManager.check_usage_limit, DatabaseManager.increment_usage)
  * backend/app/api/routes/ai.py   — conversation assembly, attachment
    extraction, speech-to-text validation and temp-file lifecycle, cost
    calculation, and the audio round trip (audio_chat)
  * backend/app/api/routes/chats.py — the check-then-increment call
    pattern of create_normal_chat

External effects (database rows, the filesystem, provider calls,
extraction libraries) are passed in explicitly as values describing the
outcome the outside world would produce, and the functions mirror the
source control flow over those outcomes.
-/

namespace ToeAI

/-! ## Settings (backend/app/core/config.py) -/

def FREE_NORMAL_CHAT_LIMIT : Nat := 10

def FREE_INTERVIEW_CHAT_LIMIT : Nat := 5

def MAX_FILE_SIZE : Nat := 10 * 1024 * 1024

def ALLOWED_AUDIO_EXTENSIONS : List String := ["mp3", "wav", "m4a", "ogg"]

/-! ## Usage admission gate (backend/app/core/database.py) -/

/-- One row of the usage_tracking table, as read by check_usage_limit. -/
structure UsageRow where
  normal_chats_used : Nat
  interview_chats_used : Nat
deriving DecidableEq, Repr

/-- The subscription_tiers columns read by check_usage_limit; the limits
are optional because the source reads them with .get and defaults
(100 and 50). -/
structure SubscriptionTier where
  normal_chat_limit : Option Nat
  interview_chat_limit : Option Nat
deriving DecidableEq, Repr

/-- The database rows relevant to one user: the usage_tracking row (none
when no row exists yet) and the newest user_subscriptions row together
with its joined subscription_tiers record (`some none` models a
subscription row whose subscription_tiers join is null). -/
structure DbState where
  usage : Option UsageRow
  subscription : Option (Option SubscriptionTier)
deriving DecidableEq, Repr

/-- Effective limits, from check_usage_limit lines 187-194: tier limits
with defaults 100/50 when a subscription row with a tiers record exists,
otherwise the free-tier defaults from settings. -/
def effectiveLimits (db : DbState) : Nat × Nat :=
  match db.subscription with
  | some (some tier) =>
      (tier.normal_chat_limit.getD 100, tier.interview_chat_limit.getD 50)
  | _ => (FREE_NORMAL_CHAT_LIMIT, FREE_INTERVIEW_CHAT_LIMIT)

/-- DatabaseManager.check_usage_limit.  `env` is settings.ENVIRONMENT and
`dbError` models an exception raised by any of the database operations in
the body (caught by the final except clause).  Returns the boolean
decision together with the database state after the call (a zero
initialized usage row is inserted when none exists). -/
def check_usage_limit (env : String) (dbError : Bool) (db : DbState)
    (chat_type : String) : Bool × DbState :=
  if env = "development" then (true, db)
  else if dbError then (false, db)
  else
    match db.usage with
    | none => (true, { db with usage := some ⟨0, 0⟩ })
    | some usage =>
        let limits := effectiveLimits db
        if chat_type = "normal" then
          (decide (usage.normal_chats_used < limits.1), db)
        else if chat_type = "interview" then
          (decide (usage.interview_chats_used < limits.2), db)
        else (false, db)

/-- The per-kind increment applied to a usage row. -/
def bumpUsage (row : UsageRow) (chat_type : String) : UsageRow :=
  if chat_type = "normal" then
    { row with normal_chats_used := row.normal_chats_used + 1 }
  else if chat_type = "interview" then
    { row with interview_chats_used := row.interview_chats_used + 1 }
  else row

/-- DatabaseManager.increment_usage.  The primary path calls the database
RPC increment_usage_count, whose SQL body is not part of the repository;
that RPC is modelled from the spec: commit increments `used` by 1 for the
given chat kind.  The fallback path (`rpcOk = false`) is the manual
read-then-update increment written out in the source, which also adds 1. -/
def increment_usage (rpcOk : Bool) (db : DbState) (chat_type : String) :
    DbState :=
  if rpcOk then { db with usage := db.usage.map (fun r => bumpUsage r chat_type) }
  else
    match db.usage with
    | some row => { db with usage := some (bumpUsage row chat_type) }
    | none => db

/-- The used counter of a row for a chat kind. -/
def usedFor (row : UsageRow) (chat_type : String) : Nat :=
  if chat_type = "normal" then row.normal_chats_used
  else row.interview_chats_used

/-- The effective limit for a chat kind. -/
def limitFor (db : DbState) (chat_type : String) : Nat :=
  if chat_type = "normal" then (effectiveLimits db).1
  else (effectiveLimits db).2

/-! ## Cost calculation (ai.py, calculate_openai_cost) -/

/-- The static per-model rate table (per 1K tokens): input rate and
output rate. -/
def openaiPricing : List (String × ℚ × ℚ) :=
  [("gpt-3.5-turbo", (0.0015 : ℚ), (0.002 : ℚ)),
   ("gpt-4", (0.03 : ℚ), (0.06 : ℚ)),
   ("gpt-4-turbo", (0.01 : ℚ), (0.03 : ℚ))]

/-- calculate_openai_cost: unknown model gives 0.0; a known model gives
prompt_tokens/1000 times its input rate plus completion_tokens/1000 times
its output rate. -/
def calculate_openai_cost (prompt_tokens completion_tokens : Nat)
    (model : String) : ℚ :=
  match openaiPricing.find? (fun p => p.1 == model) with
  | none => 0
  | some p =>
      (prompt_tokens : ℚ) / 1000 * p.2.1 + (completion_tokens : ℚ) / 1000 * p.2.2

/-! ## Python string primitives, modelled by code point

The Python string methods the source uses are modelled directly over the
character list of the string, which matches Python semantics (Python
strings index by code point). -/

/-- Python string slicing s[:n]. -/
def pyTake (s : String) (n : Nat) : String :=
  ⟨s.data.take n⟩

/-- Python str.startswith. -/
def pyStartsWith (s p : String) : Bool :=
  s.data.take p.data.length == p.data

/-- Python str.endswith. -/
def pyEndsWith (s p : String) : Bool :=
  s.data.drop (s.data.length - p.data.length) == p.data

/-- Python `c in s` for a single character. -/
def pyContains (s : String) (c : Char) : Bool :=
  s.data.contains c

/-- Python str.lower on one character (ASCII case mapping; the source
only compares lowered values against ASCII literals). -/
def pyLowerChar (c : Char) : Char :=
  if 65 ≤ c.toNat ∧ c.toNat ≤ 90 then Char.ofNat (c.toNat + 32) else c

/-- Python str.lower. -/
def pyLower (s : String) : String :=
  ⟨s.data.map pyLowerChar⟩

/-- Python str.strip(): drop whitespace from both ends. -/
def pyStrip (s : String) : String :=
  ⟨((s.data.dropWhile Char.isWhitespace).reverse.dropWhile
      Char.isWhitespace).reverse⟩

/-- Python sep.join(parts). -/
def pyJoin (sep : String) : List String → String
  | [] => ""
  | x :: xs => xs.foldl (fun acc y => acc ++ sep ++ y) x

/-- Python filename.split(".")[-1]: the suffix after the last dot (the
whole name when it has no dot, "" when it ends with a dot). -/
def lastDotComponent (s : String) : String :=
  ⟨(s.data.reverse.takeWhile (fun c => !(c == '.'))).reverse⟩

/-! ## Conversation assembly (ai.py, chat_completion lines 46-80;
interview_chat lines 154-188 assembles identically, differing only in
the system prompt text and the synthetic analyze-instruction wording) -/

/-- One entry of request.conversation_history: a dict with role and
content keys. -/
structure HistMsg where
  role : String
  content : String
deriving DecidableEq, Repr

/-- One message of the list sent to the completion service. -/
structure ChatMsg where
  role : String
  content : String
deriving DecidableEq, Repr

/-- The role mapping applied to history entries: "user" stays "user",
anything else becomes "assistant". -/
def mapHistMsg (m : HistMsg) : ChatMsg :=
  ⟨if m.role = "user" then "user" else "assistant", m.content⟩

/-- Python truthiness of the content string (`if content:`). -/
def contentNonempty (m : HistMsg) : Bool :=
  !(m.content == "")

/-- Python slicing conversation_history[-10:]: the most recent 10
entries (the whole list when it has at most 10). -/
def lastTen (l : List HistMsg) : List HistMsg :=
  l.drop (l.length - 10)

/-- The history loop: append the role-mapped entry for each history
message whose content is non-empty, in order, onto the already built
message list. -/
def addHistory (msgs : List ChatMsg) (history : List HistMsg) : List ChatMsg :=
  history.foldl
    (fun acc m => if contentNonempty m then acc ++ [mapHistMsg m] else acc)
    msgs

/-- Combining request.content with the extracted file content
(chat_completion lines 72-77): when file content exists it is appended
under an "Attached file content" section, and an empty or blank user
message is replaced by a synthetic analyze instruction. -/
def composeUserContent (content file_content : String) : String :=
  if file_content ≠ "" then
    if content ≠ "" ∧ pyStrip content ≠ "" then
      content ++ "\n\nAttached file content:\n" ++ file_content
    else
      "Please analyze this attached file:\n\n" ++ file_content
  else content

/-- The full message list assembled by chat_completion: the system turn,
then the last 10 history turns with non-empty content in original order,
then the composed user turn. -/
def chat_completion_messages (system_prompt : String) (history : List HistMsg)
    (content file_content : String) : List ChatMsg :=
  addHistory [⟨"system", system_prompt⟩] (lastTen history)
    ++ [⟨"user", composeUserContent content file_content⟩]

/-! ## Attachment extraction (ai.py, process_attached_files lines
691-836 and try_alternative_pdf_extraction lines 839-892) -/

/-- Outcome of opening and reading the file as UTF-8 text. -/
inductive ReadOutcome where
  | ok (content : String)
  | unicodeErr
deriving DecidableEq, Repr

/-- Outcome of importing and running one PDF library on the file:
the library is not installed (ImportError), opening or parsing the file
raised, or a list of per-page extraction outcomes (none when
extract_text raised for that page, which the source skips). -/
inductive PdfLibOutcome where
  | notInstalled
  | openErr (msg : String)
  | ok (pages : List (Option String))
deriving DecidableEq, Repr

/-- Outcome of the python-docx library on the file. -/
inductive DocxOutcome where
  | notInstalled
  | openErr (msg : String)
  | ok (paragraphs : List String)
deriving DecidableEq, Repr

/-- One attachment dict together with the outside-world outcomes its
processing would observe.  `path` is file_info.get('file_path') or
file_info.get('path') (none when both are missing or empty); `name` is
the resolved display name (original_name / name / filename / 'Unknown
file'); `errName` is file_info.get('name', 'Unknown file'), the name the
outer per-file error handler uses; `outerErr` models an unexpected
exception raised while processing this file and not caught by a branch
handler (caught by the per-file except clause). -/
structure AttachedFile where
  path : Option String
  name : String
  errName : String
  ftype : String
  fileExists : Bool
  sizeBytes : Nat
  utf8Read : ReadOutcome
  latin1Read : Except String String
  pypdf2 : PdfLibOutcome
  pdfplumberLib : PdfLibOutcome
  fitzLib : PdfLibOutcome
  docxLib : DocxOutcome
  outerErr : Option String
deriving Repr

/-- The page loop shared by the PDF extractors: starting from an
accumulated string, visit pages in order; stop once the accumulated text
exceeds 12000 characters; skip pages that raised and pages whose text is
blank; otherwise append a page header and the page text.  `n` is the
1-based page number. -/
def collectPdfPagesGo : List (Option String) → Nat → String → String
  | [], _, acc => acc
  | p :: rest, n, acc =>
      if 12000 < acc.length then acc
      else
        match p with
        | none => collectPdfPagesGo rest (n + 1) acc
        | some t =>
            if pyStrip t ≠ "" then
              collectPdfPagesGo rest (n + 1)
                (acc ++ "\n--- Page " ++ toString n ++ " ---\n" ++ t)
            else collectPdfPagesGo rest (n + 1) acc

/-- The joined page text produced by one PDF library run. -/
def collectPdfPages (pages : List (Option String)) : String :=
  collectPdfPagesGo pages 1 ""

/-- The pymupdf (fitz) part of try_alternative_pdf_extraction: only the
first 10 pages are visited; an open error or a missing library yields the
empty string. -/
def tryFitzExtraction (fitz : PdfLibOutcome) : String :=
  match fitz with
  | .notInstalled => ""
  | .openErr _ => ""
  | .ok pages =>
      let content := collectPdfPages (pages.take 10)
      if pyStrip content ≠ "" then pyTake content 15000 else ""

/-- try_alternative_pdf_extraction: pdfplumber first (an open error is
caught by the outer handler and yields "" without trying fitz; a missing
library or empty text falls through to fitz), then pymupdf; every
returned text is sliced to 15000 characters. -/
def try_alternative_pdf_extraction (plumber fitz : PdfLibOutcome) : String :=
  match plumber with
  | .openErr _ => ""
  | .notInstalled => tryFitzExtraction fitz
  | .ok pages =>
      let content := collectPdfPages pages
      if pyStrip content ≠ "" then pyTake content 15000
      else tryFitzExtraction fitz

/-- The text branch: decode as UTF-8 sliced to 15000 characters; on a
UnicodeDecodeError retry with Latin-1; a Latin-1 failure is reported
in-band. -/
def textBranchText (f : AttachedFile) : String :=
  match f.utf8Read with
  | .ok c => pyTake c 15000
  | .unicodeErr =>
      match f.latin1Read with
      | .ok c => pyTake c 15000
      | .error msg => "[Error reading file: " ++ msg ++ "]"

/-- The PDF branch: PyPDF2 first; when it is missing, raises, or yields
blank text, fall back to try_alternative_pdf_extraction; every failure
mode is reported as an in-band placeholder. -/
def pdfBranchText (f : AttachedFile) : String :=
  match f.pypdf2 with
  | .notInstalled =>
      let alt := try_alternative_pdf_extraction f.pdfplumberLib f.fitzLib
      if alt ≠ "" then alt
      else "[PDF processing libraries not available. Please install PyPDF2 or provide the text content directly.]"
  | .openErr msg =>
      let alt := try_alternative_pdf_extraction f.pdfplumberLib f.fitzLib
      if alt ≠ "" then alt
      else "[Error reading PDF: " ++ msg ++ ". This might be a protected, scanned, or complex PDF.]"
  | .ok pages =>
      let content := collectPdfPages pages
      if pyStrip content ≠ "" then pyTake content 15000
      else
        let alt := try_alternative_pdf_extraction f.pdfplumberLib f.fitzLib
        if alt ≠ "" then alt
        else "[PDF appears to be empty or text could not be extracted. This might be a scanned PDF or contain only images. Please try converting it to text first.]"

/-- The Word-document paragraph loop: append each paragraph text and stop
once the newline-joined text exceeds 15000 characters (the check runs
after the append, as in the source). -/
def takeParas (acc : List String) : List String → List String
  | [] => acc
  | p :: rest =>
      let acc2 := acc ++ [p]
      if 15000 < (pyJoin "\n" acc2).length then acc2
      else takeParas acc2 rest

/-- The Word-document branch: paragraph join sliced to 15000 characters;
missing library, open errors and empty documents are reported in-band. -/
def docBranchText (f : AttachedFile) : String :=
  match f.docxLib with
  | .notInstalled =>
      "[Word document processing not available - python-docx not installed]"
  | .openErr msg => "[Error reading Word document: " ++ msg ++ "]"
  | .ok paragraphs =>
      let text := pyJoin "\n" (takeParas [] paragraphs)
      if pyStrip text ≠ "" then pyTake text 15000
      else "[Document appears to be empty or contains only formatting/images]"

/-- The displayed size round(size_bytes/(1024*1024), 2); the decimal
rendering of the rounded value is modelled to the nearest hundredth. -/
def formatMb (sizeBytes : Nat) : String :=
  let hundredths := (sizeBytes * 100 + 524288) / 1048576
  toString (hundredths / 100) ++ "." ++ toString (hundredths % 100)

/-- The image branch placeholder. -/
def imagePlaceholder (f : AttachedFile) : String :=
  "[Image file uploaded (" ++ formatMb f.sizeBytes
    ++ "MB) - I can see this is an image file but cannot analyze visual content. If this image contains text (like a screenshot or document scan), please describe what you'd like me to help you with regarding this image, or use OCR tools to extract the text first.]"

/-- The unsupported-type placeholder. -/
def otherPlaceholder (f : AttachedFile) : String :=
  "[File uploaded (" ++ formatMb f.sizeBytes ++ "MB) but type '" ++ f.ftype
    ++ "' is not supported for text extraction. Supported formats: PDF, Word documents (.doc/.docx), text files (.txt), and images. Please describe what you'd like me to help you with regarding this file.]"

/-- The media-type / extension dispatch of process_attached_files for a
file whose path resolved. -/
def dispatchText (f : AttachedFile) : String :=
  if f.ftype ≠ ""
      ∧ (pyStartsWith f.ftype "text/"
          ∨ pyEndsWith f.name ".txt" ∨ pyEndsWith f.name ".md") then
    textBranchText f
  else if pyEndsWith (pyLower f.name) ".pdf" then pdfBranchText f
  else if pyEndsWith (pyLower f.name) ".doc" ∨ pyEndsWith (pyLower f.name) ".docx" then
    docBranchText f
  else if f.ftype ≠ "" ∧ pyStartsWith f.ftype "image/" then imagePlaceholder f
  else otherPlaceholder f

/-- The single entry appended to file_contents for one attachment: every
branch, including every failure, contributes exactly one header-plus-text
block. -/
def extractEntry (f : AttachedFile) : String :=
  match f.outerErr with
  | some msg =>
      "--- " ++ f.errName ++ " ---\n[Error processing file: " ++ msg ++ "]\n"
  | none =>
      match f.path with
      | none => "--- " ++ f.name ++ " ---\n[Error: No file path provided]\n"
      | some p =>
          if f.fileExists then
            "--- " ++ f.name ++ " ---\n" ++ dispatchText f ++ "\n"
          else
            "--- " ++ f.name ++ " ---\n[Error: File not found at " ++ p ++ "]\n"

/-- The per-file loop of process_attached_files: each attachment appends
exactly one entry to file_contents, in input order. -/
def process_attached_files (files : List AttachedFile) : List String :=
  files.foldl (fun acc f => acc ++ [extractEntry f]) []

/-- The string returned by process_attached_files: the entries joined
with a newline ("" for an empty batch). -/
def process_attached_files_joined (files : List AttachedFile) : String :=
  pyJoin "\n" (process_attached_files files)

/-! ## Speech-to-text (ai.py, speech_to_text lines 252-349) -/

/-- The upload metadata speech_to_text inspects; "" models a missing
content type or filename. -/
structure SttInput where
  content_type : String
  filename : String
  contentSize : Nat
deriving DecidableEq, Repr

/-- The HTTP-level outcome of speech_to_text: a 400 validation rejection,
the 500 raised by the catch-all handler, or the transcription payload. -/
inductive SttResult where
  | badRequest (detail : String)
  | serverError (detail : String)
  | ok (text : String)
deriving DecidableEq, Repr

/-- One run of speech_to_text: its result, whether the Whisper provider
was called, whether a temporary buffered file was created, and whether
that file still exists when the call returns. -/
structure SttRun where
  result : SttResult
  providerCalled : Bool
  tempCreated : Bool
  tempSurvives : Bool
deriving DecidableEq, Repr

/-- The file extension speech_to_text resolves: a missing filename or one
without a dot defaults to "wav"; otherwise the lower-cased last
dot-separated component. -/
def sttExtension (filename : String) : String :=
  if filename = "" ∨ ¬ pyContains filename '.' then "wav"
  else pyLower (lastDotComponent filename)

/-- The body of speech_to_text after validation: the temp file is
written, the size cap is checked (the temp file is removed before the
oversize rejection, which the catch-all except clause converts to a 500),
then the provider is called; the temp file is removed on the success path
and by the except-clause cleanup on the provider-error path. -/
def sttBody (inp : SttInput) (provider : Except String String) : SttRun :=
  let tempWritten := true
  if MAX_FILE_SIZE < inp.contentSize then
    -- os.remove(temp_path), then the 400 is converted to a 500 by the
    -- catch-all except clause (whose cleanup finds the file already gone)
    ⟨.serverError "Failed to transcribe audio", false, tempWritten, false⟩
  else
    match provider with
    | .error _ =>
        -- except clause: the temp file still exists and is removed
        ⟨.serverError "Failed to transcribe audio", true, tempWritten, false⟩
    | .ok text =>
        -- os.remove(temp_path) on the success path
        ⟨.ok text, true, tempWritten, false⟩

/-- speech_to_text: content-type prefix check, extension resolution with
allow-list check (only when the filename has an extension; otherwise the
extension silently defaults to "wav"), then the buffered body. -/
def speech_to_text (inp : SttInput) (provider : Except String String) : SttRun :=
  if ¬ pyStartsWith inp.content_type "audio/" then
    ⟨.badRequest "File must be an audio file", false, false, false⟩
  else if inp.filename ≠ "" ∧ pyContains inp.filename '.'
      ∧ ¬ ALLOWED_AUDIO_EXTENSIONS.contains (sttExtension inp.filename) then
    ⟨.badRequest ("Audio format not supported. Allowed formats: "
        ++ pyJoin ", " ALLOWED_AUDIO_EXTENSIONS), false, false, false⟩
  else sttBody inp provider

/-! ## Text-to-speech and the audio round trip (ai.py, text_to_speech
lines 356-429, generate_tts_audio lines 603-632, audio_chat lines
436-498) -/

def valid_voices : List String :=
  ["alloy", "echo", "fable", "onyx", "nova", "shimmer"]

/-- text_to_speech: validates length, voice and speed, then calls the
synthesis provider; a provider failure raises the 500 detail "Failed to
generate audio"; on success the stored audio URL is returned. -/
def text_to_speech (text : String) (voice : String) (speed : ℚ)
    (provider : Except String String) : Except String String :=
  if 4000 < text.length then
    .error "Text too long. Maximum 4000 characters."
  else if ¬ valid_voices.contains voice then
    .error ("Invalid voice. Valid voices: " ++ pyJoin ", " valid_voices)
  else if ¬ ((1/4 : ℚ) ≤ speed ∧ speed ≤ 4) then
    .error "Speed must be between 0.25 and 4.0"
  else
    match provider with
    | .error _ => .error "Failed to generate audio"
    | .ok audioUrl => .ok audioUrl

/-- generate_tts_audio: any synthesis failure is caught and swallowed,
returning None instead of an audio URL. -/
def generate_tts_audio (synthesis : Except String String) : Option String :=
  match synthesis with
  | .ok audioUrl => some audioUrl
  | .error _ => none

/-- The assistant message of a ChatResponse: its text and optional audio
URL. -/
structure AiMessage where
  content : String
  audio_url : Option String
deriving DecidableEq, Repr

/-- chat_completion as seen by audio_chat: a completion failure becomes
the 500 "Failed to get AI response"; the produced message carries no
audio URL. -/
def chat_completion_result (completion : Except String String) :
    Except String AiMessage :=
  match completion with
  | .error _ => .error "Failed to get AI response"
  | .ok content => .ok ⟨content, none⟩

/-- interview_chat as seen by audio_chat: a completion failure becomes
the 500 "Failed to get interview response"; TTS generation is attempted
via generate_tts_audio, whose failure is swallowed into a missing audio
URL. -/
def interview_chat_result (completion : Except String String)
    (synthesis : Except String String) : Except String AiMessage :=
  match completion with
  | .error _ => .error "Failed to get interview response"
  | .ok content => .ok ⟨content, generate_tts_audio synthesis⟩

/-- audio_chat: STT, then the chat step (interview when a job position or
company name was given), then — only when the message has no audio URL
yet — text_to_speech; an HTTPException raised by any step, the final TTS
step included, is re-raised by the `except HTTPException: raise` clause.
`stt` / `completion` / `interviewTts` / `finalTts` are the outcomes of
the respective provider calls. -/
def audio_chat (stt : Except String String) (useInterview : Bool)
    (completion : Except String String) (interviewTts : Except String String)
    (voice : String) (finalTts : Except String String) :
    Except String (String × AiMessage) :=
  match stt with
  | .error e => .error e
  | .ok user_text =>
      let aiResp :=
        if useInterview then interview_chat_result completion interviewTts
        else chat_completion_result completion
      match aiResp with
      | .error e => .error e
      | .ok msg =>
          match msg.audio_url with
          | some _ => .ok (user_text, msg)
          | none =>
              match text_to_speech msg.content voice 1 finalTts with
              | .error e => .error e
              | .ok url => .ok (user_text, { msg with audio_url := some url })

/-! ## Concurrent check-then-increment (chats.py, create_normal_chat
lines 97-158: check_usage_limit, then the chat insert, then
increment_usage — two separate data-layer calls) -/

/-- One data-layer step of a concurrent chat-creating request: its quota
check or its usage increment, tagged with the request id. -/
inductive GateAct where
  | check (rid : Nat)
  | commit (rid : Nat)
deriving DecidableEq, Repr

/-- Shared state while requests interleave: the database rows and the
ids of requests whose check passed (these are the admitted requests, the
ones that go on to create the chat and commit). -/
structure GateState where
  db : DbState
  admitted : List Nat
deriving DecidableEq, Repr

/-- One interleaving step, as create_normal_chat performs it: a check
step runs check_usage_limit and admits the request when it returns true;
a commit step runs increment_usage for a previously admitted request. -/
def gateStep (env : String) (s : GateState) (a : GateAct) : GateState :=
  match a with
  | .check rid =>
      let r := check_usage_limit env false s.db "normal"
      if r.1 then { db := r.2, admitted := s.admitted ++ [rid] }
      else { s with db := r.2 }
  | .commit rid =>
      if rid ∈ s.admitted then
        { s with db := increment_usage true s.db "normal" }
      else s

/-- Run an interleaving of check and commit steps from an initial
database state. -/
def runGate (env : String) (db : DbState) (sched : List GateAct) : GateState :=
  sched.foldl (gateStep env) ⟨db, []⟩

/-! ## Concrete sample data used by witnesses and counterexamples -/

/-- A 15-turn conversation history whose last 10 turns all have
non-empty content. -/
def hist15 : List HistMsg :=
  [⟨"user", "m1"⟩, ⟨"assistant", "m2"⟩, ⟨"user", "m3"⟩, ⟨"assistant", "m4"⟩,
   ⟨"user", "m5"⟩, ⟨"assistant", "m6"⟩, ⟨"user", "m7"⟩, ⟨"assistant", "m8"⟩,
   ⟨"user", "m9"⟩, ⟨"assistant", "m10"⟩, ⟨"user", "m11"⟩, ⟨"assistant", "m12"⟩,
   ⟨"user", "m13"⟩, ⟨"assistant", "m14"⟩, ⟨"user", "m15"⟩]

/-- A 15-turn conversation history whose 12th turn has empty content. -/
def histCE : List HistMsg :=
  [⟨"user", "m1"⟩, ⟨"assistant", "m2"⟩, ⟨"user", "m3"⟩, ⟨"assistant", "m4"⟩,
   ⟨"user", "m5"⟩, ⟨"assistant", "m6"⟩, ⟨"user", "m7"⟩, ⟨"assistant", "m8"⟩,
   ⟨"user", "m9"⟩, ⟨"assistant", "m10"⟩, ⟨"user", "m11"⟩, ⟨"assistant", ""⟩,
   ⟨"user", "m13"⟩, ⟨"assistant", "m14"⟩, ⟨"user", "m15"⟩]

/-- A plain-text attachment whose read succeeds. -/
def demoTextFile : AttachedFile :=
  { path := some "/static/uploads/a.txt", name := "a.txt", errName := "a.txt",
    ftype := "text/plain", fileExists := true, sizeBytes := 5,
    utf8Read := .ok "hello", latin1Read := .ok "hello",
    pypdf2 := .notInstalled, pdfplumberLib := .notInstalled,
    fitzLib := .notInstalled, docxLib := .notInstalled, outerErr := none }

/-- An attachment whose path does not resolve to a file. -/
def demoMissingFile : AttachedFile :=
  { path := some "/static/uploads/gone.pdf", name := "gone.pdf",
    errName := "gone.pdf", ftype := "application/pdf", fileExists := false,
    sizeBytes := 0, utf8Read := .unicodeErr, latin1Read := .error "io",
    pypdf2 := .notInstalled, pdfplumberLib := .notInstalled,
    fitzLib := .notInstalled, docxLib := .notInstalled, outerErr := none }

/-- An attachment whose processing raises an unexpected exception. -/
def demoBadFile : AttachedFile :=
  { path := some "/static/uploads/b.docx", name := "b.docx", errName := "b.docx",
    ftype := "", fileExists := true, sizeBytes := 9,
    utf8Read := .unicodeErr, latin1Read := .error "io",
    pypdf2 := .notInstalled, pdfplumberLib := .notInstalled,
    fitzLib := .notInstalled, docxLib := .notInstalled,
    outerErr := some "boom" }

/-- A batch mixing a successful attachment with two failing ones. -/
def demoFiles : List AttachedFile :=
  [demoTextFile, demoMissingFile, demoBadFile]

/-! ## Theorems -/

/-- C1: for an enforcing (non-development) environment, an error-free
check and an existing usage row, check_usage_limit returns true exactly
when the used counter for the requested chat kind is strictly below the
effective tier limit (free-tier defaults when no subscription row with a
tiers record exists), and increment_usage — through the RPC as well as
through the fallback — leaves the counter at exactly used + 1. -/
theorem check_and_commit_quota_spec (env : String) (db : DbState) (u : UsageRow)
    (ct : String) (rpcOk : Bool)
    (henv : env ≠ "development") (hu : db.usage = some u)
    (hct : ct = "normal" ∨ ct = "interview") :
    ((check_usage_limit env false db ct).1 = true ↔ usedFor u ct < limitFor db ct)
    ∧ (increment_usage rpcOk db ct).usage = some (bumpUsage u ct)
    ∧ usedFor (bumpUsage u ct) ct = usedFor u ct + 1 := by
  refine ⟨?_, ?_, ?_⟩
  · rcases hct with h | h <;> subst h <;>
      simp [check_usage_limit, henv, hu, usedFor, limitFor]
  · cases rpcOk <;> simp [increment_usage, hu]
  · rcases hct with h | h <;> subst h <;> simp [bumpUsage, usedFor]

/-- Witness for C1 at the quota instances named by the spec: interview
kind under the free-tier default limit 5, with used = 4 (admitted, and
commit moves the counter to 5) and used = 5 (rejected). -/
theorem check_and_commit_quota_spec_witness :
    (((check_usage_limit "production" false ⟨some ⟨0, 4⟩, none⟩ "interview").1 = true
        ↔ usedFor ⟨0, 4⟩ "interview" < limitFor ⟨some ⟨0, 4⟩, none⟩ "interview")
      ∧ (increment_usage true ⟨some ⟨0, 4⟩, none⟩ "interview").usage
          = some (bumpUsage ⟨0, 4⟩ "interview")
      ∧ usedFor (bumpUsage ⟨0, 4⟩ "interview") "interview"
          = usedFor ⟨0, 4⟩ "interview" + 1)
    ∧ (((check_usage_limit "production" false ⟨some ⟨0, 5⟩, none⟩ "interview").1 = true
        ↔ usedFor ⟨0, 5⟩ "interview" < limitFor ⟨some ⟨0, 5⟩, none⟩ "interview")
      ∧ (increment_usage false ⟨some ⟨0, 5⟩, none⟩ "interview").usage
          = some (bumpUsage ⟨0, 5⟩ "interview")
      ∧ usedFor (bumpUsage ⟨0, 5⟩ "interview") "interview"
          = usedFor ⟨0, 5⟩ "interview" + 1) :=
  ⟨check_and_commit_quota_spec "production" ⟨some ⟨0, 4⟩, none⟩ ⟨0, 4⟩
      "interview" true (by decide) rfl (Or.inr rfl),
   check_and_commit_quota_spec "production" ⟨some ⟨0, 5⟩, none⟩ ⟨0, 5⟩
      "interview" false (by decide) rfl (Or.inr rfl)⟩

/-- C10 counterexample: in the development environment with no usage row,
check_usage_limit returns true but performs no insert — the database
state is unchanged, so no zero-initialized counter row is created there
(the early development return precedes every database operation). -/
theorem dev_mode_creates_no_usage_row :
    check_usage_limit "development" false ⟨none, none⟩ "normal"
      = (true, ⟨none, none⟩) := by decide

/-- C10 (amended): check_usage_limit always yields a boolean decision (it
is a total function of its inputs): in the development environment it
returns true unconditionally and touches no row, an internal error in
any other environment yields false (the gate fails closed), and in a
non-development environment a missing usage row is created
zero-initialized with the check returning true. -/
theorem check_usage_limit_total_spec (env : String) (dbError : Bool)
    (db : DbState) (ct : String) :
    (env = "development" → check_usage_limit env dbError db ct = (true, db))
    ∧ (env ≠ "development" → dbError = true →
        check_usage_limit env dbError db ct = (false, db))
    ∧ (env ≠ "development" → dbError = false → db.usage = none →
        check_usage_limit env dbError db ct
          = (true, { db with usage := some ⟨0, 0⟩ })) := by
  refine ⟨fun h => ?_, fun h hd => ?_, fun h hd hn => ?_⟩
  · simp [check_usage_limit, h]
  · simp [check_usage_limit, h, hd]
  · simp [check_usage_limit, h, hd, hn]

/-- Witness for C10 at concrete inputs: development bypass (with an
internal error), fail-closed in production, and row creation in
production. -/
theorem check_usage_limit_total_spec_witness :
    check_usage_limit "development" true ⟨none, none⟩ "normal"
      = (true, ⟨none, none⟩)
    ∧ check_usage_limit "production" true ⟨none, none⟩ "normal"
      = (false, ⟨none, none⟩)
    ∧ check_usage_limit "production" false ⟨none, none⟩ "normal"
      = (true, ⟨some ⟨0, 0⟩, none⟩) :=
  ⟨(check_usage_limit_total_spec "development" true ⟨none, none⟩ "normal").1 rfl,
   (check_usage_limit_total_spec "production" true ⟨none, none⟩ "normal").2.1
      (by decide) rfl,
   (check_usage_limit_total_spec "production" false ⟨none, none⟩ "normal").2.2
      (by decide) rfl rfl⟩

/-- C6: create_normal_chat performs check_usage_limit and
increment_usage as two separate data-layer calls, so with limit 5 and
used 4 (one admission left) the interleaving check₁ check₂ commit₁
commit₂ of two simultaneous requests admits both and leaves the counter
at 6 — the claimed exactly-k-admissions/no-overshoot property fails on
the code. -/
theorem concurrent_gate_overshoot :
    (runGate "production" ⟨some ⟨4, 0⟩, some (some ⟨some 5, some 5⟩)⟩
        [.check 1, .check 2, .commit 1, .commit 2]).admitted.length = 2
    ∧ (runGate "production" ⟨some ⟨4, 0⟩, some (some ⟨some 5, some 5⟩)⟩
        [.check 1, .check 2, .commit 1, .commit 2]).db.usage
      = some ⟨6, 0⟩ := by decide

/-- C7: for each model of the static rate table the computed cost is
promptTokens/1000 times its input rate plus completionTokens/1000 times
its output rate, and for every model absent from the table the cost is
exactly 0. -/
theorem calculate_openai_cost_spec (pt ct : Nat) :
    calculate_openai_cost pt ct "gpt-3.5-turbo"
        = (pt : ℚ) / 1000 * 0.0015 + (ct : ℚ) / 1000 * 0.002
    ∧ calculate_openai_cost pt ct "gpt-4"
        = (pt : ℚ) / 1000 * 0.03 + (ct : ℚ) / 1000 * 0.06
    ∧ calculate_openai_cost pt ct "gpt-4-turbo"
        = (pt : ℚ) / 1000 * 0.01 + (ct : ℚ) / 1000 * 0.03
    ∧ ∀ model : String, model ∉ openaiPricing.map Prod.fst →
        calculate_openai_cost pt ct model = 0 := by
  refine ⟨rfl, rfl, rfl, fun model hm => ?_⟩
  have hfind : openaiPricing.find? (fun p => p.1 == model) = none := by
    rw [List.find?_eq_none]
    intro p hp
    simp only [beq_iff_eq]
    intro h
    exact hm (h ▸ List.mem_map_of_mem Prod.fst hp)
  simp [calculate_openai_cost, hfind]

/-- Witness for C7 at prompt = 7, completion = 3 tokens, with a known
and an unknown model. -/
theorem calculate_openai_cost_spec_witness :
    calculate_openai_cost 7 3 "gpt-3.5-turbo"
        = (7 : ℚ) / 1000 * 0.0015 + (3 : ℚ) / 1000 * 0.002
    ∧ calculate_openai_cost 7 3 "gpt-5" = 0 :=
  ⟨(calculate_openai_cost_spec 7 3).1,
   (calculate_openai_cost_spec 7 3).2.2.2 "gpt-5" (by decide)⟩

/-- The history loop appends, onto the already built message list, the
role-mapped images of exactly the history entries with non-empty
content, in order. -/
theorem addHistory_eq (history : List HistMsg) (msgs : List ChatMsg) :
    addHistory msgs history
      = msgs ++ (history.filter contentNonempty).map mapHistMsg := by
  induction history generalizing msgs with
  | nil => simp [addHistory]
  | cons m rest ih =>
      simp only [addHistory, List.foldl_cons] at *
      by_cases h : contentNonempty m
      · rw [if_pos h, ih, List.filter_cons_of_pos h]
        simp
      · rw [if_neg h, ih, List.filter_cons_of_neg h]

/-- C8 (amended): for a history of more than 10 prior turns all of whose
last 10 turns have non-empty content, the assembled message list is
exactly the system turn, then the most recent 10 turns in original
order, then the composed user turn; turns with empty content would be
skipped, which is why the hypothesis is needed. -/
theorem chat_messages_truncation (system_prompt content file_content : String)
    (history : List HistMsg)
    (hlen : 10 < history.length)
    (hne : ∀ m ∈ lastTen history, contentNonempty m = true) :
    chat_completion_messages system_prompt history content file_content
      = ⟨"system", system_prompt⟩
          :: ((history.drop (history.length - 10)).map mapHistMsg
              ++ [⟨"user", composeUserContent content file_content⟩])
    ∧ (history.drop (history.length - 10)).length = 10 := by
  constructor
  · unfold chat_completion_messages
    rw [addHistory_eq, List.filter_eq_self.mpr hne]
    simp [lastTen]
  · rw [List.length_drop]
    omega

/-- Witness for C8: a concrete 15-turn history with non-empty contents
yields the system turn, turns m6..m15 in order, and the user turn. -/
theorem chat_messages_truncation_witness :
    chat_completion_messages "sys" hist15 "hello" ""
      = ⟨"system", "sys"⟩
          :: ((hist15.drop (hist15.length - 10)).map mapHistMsg
              ++ [⟨"user", composeUserContent "hello" ""⟩])
    ∧ (hist15.drop (hist15.length - 10)).length = 10 :=
  chat_messages_truncation "sys" "hello" "" hist15 (by decide) (by decide)

/-- C8 counterexample: with a 15-turn history whose 12th turn has empty
content, the assembled list has 11 messages instead of the 12 the claim
predicts, and differs from system + last-10 + user: the empty-content
turn among the last 10 is silently dropped. -/
theorem history_truncation_counterexample :
    histCE.length = 15
    ∧ (chat_completion_messages "sys" histCE "hello" "").length = 11
    ∧ chat_completion_messages "sys" histCE "hello" ""
        ≠ ⟨"system", "sys"⟩
            :: ((histCE.drop (histCE.length - 10)).map mapHistMsg
                ++ [⟨"user", composeUserContent "hello" ""⟩]) := by decide

/-- The per-file loop builds exactly the entry list of the input files,
in input order. -/
theorem process_attached_files_eq_map (files : List AttachedFile) :
    process_attached_files files = files.map extractEntry := by
  suffices h : ∀ acc, files.foldl (fun acc f => acc ++ [extractEntry f]) acc
      = acc ++ files.map extractEntry by
    simpa using h []
  induction files with
  | nil => intro acc; simp
  | cons f rest ih =>
      intro acc
      simp only [List.foldl_cons, List.map_cons, ih, List.append_assoc,
        List.singleton_append]

/-- A concatenation whose left part is non-empty is non-empty. -/
theorem append_ne_empty_left (a b : String) (ha : a ≠ "") : a ++ b ≠ "" := by
  intro h
  apply ha
  have hd := congrArg String.length h
  rw [String.length_append, String.length_empty] at hd
  have h0 : a.data.length = 0 := by
    have : a.length = 0 := by omega
    exact this
  exact String.ext (List.length_eq_zero.mp h0)

/-- Every branch of extractEntry produces a non-empty in-band entry. -/
theorem extractEntry_ne_empty (f : AttachedFile) : extractEntry f ≠ "" := by
  have hp : ("--- " : String) ≠ "" := by decide
  unfold extractEntry
  cases f.outerErr with
  | some msg => repeat first | exact hp | apply append_ne_empty_left
  | none =>
      cases f.path with
      | none => repeat first | exact hp | apply append_ne_empty_left
      | some p =>
          by_cases hex : f.fileExists <;> simp only [hex, if_true, if_false] <;>
            repeat first | exact hp | apply append_ne_empty_left

/-- C3: extraction yields exactly one entry per attachment — the output
list has the length of the input batch, is the image of the batch in
input order, and every attachment (failures included) contributes a
non-empty in-band entry. -/
theorem process_attached_files_one_entry_per_file (files : List AttachedFile) :
    (process_attached_files files).length = files.length
    ∧ process_attached_files files = files.map extractEntry
    ∧ ∀ f ∈ files, extractEntry f ≠ "" := by
  refine ⟨?_, process_attached_files_eq_map files,
    fun f _ => extractEntry_ne_empty f⟩
  rw [process_attached_files_eq_map]
  exact List.length_map _ _

/-- Witness for C3 on a concrete batch mixing a successful text file, a
missing file, and a file whose processing raises. -/
theorem process_attached_files_one_entry_per_file_witness :
    (process_attached_files demoFiles).length = demoFiles.length
    ∧ process_attached_files demoFiles = demoFiles.map extractEntry
    ∧ extractEntry demoTextFile ≠ "" :=
  ⟨(process_attached_files_one_entry_per_file demoFiles).1,
   (process_attached_files_one_entry_per_file demoFiles).2.1,
   (process_attached_files_one_entry_per_file demoFiles).2.2 demoTextFile
      (by simp [demoFiles])⟩

/-- Python slicing never yields more than the requested number of
characters. -/
theorem pyTake_length_le (s : String) (n : Nat) : (pyTake s n).length ≤ n := by
  show (s.data.take n).length ≤ n
  exact List.length_take_le n s.data

/-- The fitz fallback returns at most 15000 characters. -/
theorem tryFitz_length_le (fitz : PdfLibOutcome) :
    (tryFitzExtraction fitz).length ≤ 15000 := by
  unfold tryFitzExtraction
  cases fitz with
  | notInstalled => simp
  | openErr msg => simp
  | ok pages =>
      dsimp only
      split
      · exact pyTake_length_le _ _
      · simp

/-- try_alternative_pdf_extraction returns at most 15000 characters in
every case (covering the pdfplumber and pymupdf strategies). -/
theorem try_alternative_pdf_length_le (plumber fitz : PdfLibOutcome) :
    (try_alternative_pdf_extraction plumber fitz).length ≤ 15000 := by
  unfold try_alternative_pdf_extraction
  cases plumber with
  | openErr msg => simp
  | notInstalled => exact tryFitz_length_le fitz
  | ok pages =>
      dsimp only
      split
      · exact pyTake_length_le _ _
      · exact tryFitz_length_le fitz

set_option maxRecDepth 8000 in
/-- C5: across every extraction strategy — UTF-8 decode, Latin-1
fallback decode, PyPDF2, the two alternative PDF libraries, and the Word
paragraph join — the text placed in the attachment entry never exceeds
the 15000-character cap. -/
theorem extraction_text_cap (f : AttachedFile) :
    (∀ c, f.utf8Read = ReadOutcome.ok c → (textBranchText f).length ≤ 15000)
    ∧ (∀ c, f.utf8Read = ReadOutcome.unicodeErr → f.latin1Read = Except.ok c →
        (textBranchText f).length ≤ 15000)
    ∧ (∀ pages, f.pypdf2 = PdfLibOutcome.ok pages →
        (pdfBranchText f).length ≤ 15000)
    ∧ (∀ plumber fitz : PdfLibOutcome,
        (try_alternative_pdf_extraction plumber fitz).length ≤ 15000)
    ∧ (∀ paragraphs, f.docxLib = DocxOutcome.ok paragraphs →
        (docBranchText f).length ≤ 15000) := by
  refine ⟨fun c h => ?_, fun c h h2 => ?_, fun pages h => ?_,
    fun plumber fitz => try_alternative_pdf_length_le plumber fitz,
    fun paragraphs h => ?_⟩
  · simp only [textBranchText, h]
    exact pyTake_length_le _ _
  · simp only [textBranchText, h, h2]
    exact pyTake_length_le _ _
  · simp only [pdfBranchText, h]
    split
    · exact pyTake_length_le _ _
    · split
      · exact try_alternative_pdf_length_le _ _
      · decide
  · simp only [docBranchText, h]
    split
    · exact pyTake_length_le _ _
    · decide

/-- Witness for C5 on concrete strategy outcomes: a decoded text file
and the alternative PDF path with both libraries missing. -/
theorem extraction_text_cap_witness :
    (textBranchText demoTextFile).length ≤ 15000
    ∧ (try_alternative_pdf_extraction PdfLibOutcome.notInstalled
        PdfLibOutcome.notInstalled).length ≤ 15000 :=
  ⟨(extraction_text_cap demoTextFile).1 "hello" rfl,
   (extraction_text_cap demoTextFile).2.2.2.1 PdfLibOutcome.notInstalled
      PdfLibOutcome.notInstalled⟩

/-- C4 counterexample: an upload with an audio content type but an empty
filename is not rejected — the extension silently defaults to "wav", the
temp file is written, and the transcription provider is called. -/
theorem stt_empty_filename_not_rejected :
    speech_to_text ⟨"audio/wav", "", 4⟩ (Except.ok "hello")
      = ⟨SttResult.ok "hello", true, true, false⟩ := by decide

/-- C4 (amended): speech_to_text rejects before any provider call when
the content type does not start with "audio/", when a filename with an
extension carries one outside the allow-list, or when the content
exceeds the 10 MB cap; but an empty filename or one without an extension
is not rejected — the extension defaults to "wav" and, when the size cap
passes, the provider is called. -/
theorem stt_validation_spec (inp : SttInput) (provider : Except String String) :
    (¬ pyStartsWith inp.content_type "audio/" = true →
        speech_to_text inp provider
          = ⟨.badRequest "File must be an audio file", false, false, false⟩)
    ∧ (pyStartsWith inp.content_type "audio/" = true →
        inp.filename ≠ "" → pyContains inp.filename '.' = true →
        ¬ ALLOWED_AUDIO_EXTENSIONS.contains (sttExtension inp.filename) = true →
        speech_to_text inp provider
          = ⟨.badRequest ("Audio format not supported. Allowed formats: "
              ++ pyJoin ", " ALLOWED_AUDIO_EXTENSIONS),
             false, false, false⟩)
    ∧ (pyStartsWith inp.content_type "audio/" = true →
        (inp.filename = "" ∨ ¬ pyContains inp.filename '.' = true
          ∨ ALLOWED_AUDIO_EXTENSIONS.contains (sttExtension inp.filename) = true) →
        MAX_FILE_SIZE < inp.contentSize →
        (speech_to_text inp provider).result
            = .serverError "Failed to transcribe audio"
        ∧ (speech_to_text inp provider).providerCalled = false)
    ∧ ((inp.filename = "" ∨ ¬ pyContains inp.filename '.' = true) →
        pyStartsWith inp.content_type "audio/" = true →
        inp.contentSize ≤ MAX_FILE_SIZE →
        (speech_to_text inp provider).providerCalled = true) := by
  refine ⟨fun hctype => ?_, fun hctype hf hdot hext => ?_,
    fun hctype hext hsize => ?_, fun hname hctype hsize => ?_⟩
  · rw [speech_to_text, if_pos hctype]
  · rw [speech_to_text, if_neg (fun hc => hc hctype),
      if_pos ⟨hf, hdot, hext⟩]
  · have hcond : ¬ (inp.filename ≠ "" ∧ pyContains inp.filename '.' = true
        ∧ ¬ ALLOWED_AUDIO_EXTENSIONS.contains (sttExtension inp.filename) = true) := by
      rcases hext with h | h | h
      · exact fun hc => hc.1 h
      · exact fun hc => h hc.2.1
      · exact fun hc => hc.2.2 h
    rw [speech_to_text, if_neg (fun hc => hc hctype), if_neg hcond]
    simp only [sttBody]
    rw [if_pos hsize]
    exact ⟨rfl, rfl⟩
  · have hcond : ¬ (inp.filename ≠ "" ∧ pyContains inp.filename '.' = true
        ∧ ¬ ALLOWED_AUDIO_EXTENSIONS.contains (sttExtension inp.filename) = true) := by
      rcases hname with h | h
      · exact fun hc => hc.1 h
      · exact fun hc => h hc.2.1
    rw [speech_to_text, if_neg (fun hc => hc hctype), if_neg hcond]
    have hlt : ¬ MAX_FILE_SIZE < inp.contentSize := Nat.not_lt.mpr hsize
    simp only [sttBody]
    rw [if_neg hlt]
    cases provider <;> rfl

/-- Witness for C4 at concrete uploads: a non-audio content type, a
disallowed extension, an oversize audio file, and an empty filename that
still reaches the provider. -/
theorem stt_validation_spec_witness :
    speech_to_text ⟨"text/plain", "a.wav", 4⟩ (Except.ok "t")
      = ⟨.badRequest "File must be an audio file", false, false, false⟩
    ∧ speech_to_text ⟨"audio/wav", "a.exe", 4⟩ (Except.ok "t")
      = ⟨.badRequest ("Audio format not supported. Allowed formats: "
          ++ String.intercalate ", " ALLOWED_AUDIO_EXTENSIONS),
         false, false, false⟩
    ∧ ((speech_to_text ⟨"audio/wav", "a.wav", 99999999⟩ (Except.ok "t")).result
          = .serverError "Failed to transcribe audio"
        ∧ (speech_to_text ⟨"audio/wav", "a.wav", 99999999⟩
            (Except.ok "t")).providerCalled = false)
    ∧ (speech_to_text ⟨"audio/wav", "", 4⟩
        (Except.error "prov")).providerCalled = true :=
  ⟨(stt_validation_spec ⟨"text/plain", "a.wav", 4⟩ (Except.ok "t")).1 (by decide),
   (stt_validation_spec ⟨"audio/wav", "a.exe", 4⟩ (Except.ok "t")).2.1
      (by decide) (by decide) (by decide) (by decide),
   (stt_validation_spec ⟨"audio/wav", "a.wav", 99999999⟩ (Except.ok "t")).2.2.1
      (by decide) (by decide) (by decide),
   (stt_validation_spec ⟨"audio/wav", "", 4⟩ (Except.error "prov")).2.2.2
      (by decide) (by decide) (by decide)⟩

/-- C9: on every exit path of speech_to_text — validation rejection,
oversize rejection, provider error, and success — the temporary buffered
audio file does not survive the request. -/
theorem stt_temp_file_cleanup (inp : SttInput) (provider : Except String String) :
    (speech_to_text inp provider).tempSurvives = false := by
  rw [speech_to_text]
  split
  · rfl
  · split
    · rfl
    · simp only [sttBody]
      split
      · rfl
      · cases provider <;> rfl

/-- C2 counterexample: STT and completion both succeed, the message has
no audio URL yet, and the synthesis provider fails: audio_chat
propagates text_to_speech's error instead of returning the completion
text with a null audio URL. -/
theorem audio_chat_tts_error_propagates :
    audio_chat (Except.ok "hi") false (Except.ok "answer") (Except.error "x")
        "alloy" (Except.error "boom")
      = Except.error "Failed to generate audio" := by
  have hts : text_to_speech "answer" "alloy" 1 (Except.error "boom")
      = Except.error "Failed to generate audio" := by
    rw [text_to_speech, if_neg (by decide), if_neg (by decide),
      if_neg (fun hc => hc (by norm_num))]
  simp [audio_chat, chat_completion_result, hts]

/-- C2 (amended): an STT failure and a completion failure are fatal to
the round trip and propagate; the interview chat's internal automatic
TTS (generate_tts_audio) swallows a synthesis failure into a null audio
URL; but the coordinator's own final TTS step (text_to_speech, run
whenever the message has no audio URL) propagates a synthesis failure,
while a message that already carries an audio URL skips that step and
succeeds. -/
theorem audio_round_trip_spec
    (completion interviewTts finalTts : Except String String)
    (voice t c e : String) (useInterview : Bool) :
    (audio_chat (Except.error e) useInterview completion interviewTts voice
        finalTts = Except.error e)
    ∧ (audio_chat (Except.ok t) false (Except.error e) interviewTts voice
        finalTts = Except.error "Failed to get AI response")
    ∧ (audio_chat (Except.ok t) true (Except.error e) interviewTts voice
        finalTts = Except.error "Failed to get interview response")
    ∧ (interview_chat_result (Except.ok c) (Except.error e)
        = Except.ok ⟨c, none⟩)
    ∧ (c.length ≤ 4000 → valid_voices.contains voice = true →
        audio_chat (Except.ok t) false (Except.ok c) interviewTts voice
          (Except.error e) = Except.error "Failed to generate audio")
    ∧ (audio_chat (Except.ok t) true (Except.ok c) (Except.ok "url") voice
        finalTts = Except.ok (t, ⟨c, some "url"⟩)) := by
  refine ⟨rfl, rfl, rfl, rfl, fun hlen hvoice => ?_, rfl⟩
  have h1 : ¬ (4000 < c.length) := Nat.not_lt.mpr hlen
  have h2 : ¬ (¬ valid_voices.contains voice = true) := fun hc => hc hvoice
  have h3 : ¬ (¬ ((1 / 4 : ℚ) ≤ 1 ∧ (1 : ℚ) ≤ 4)) :=
    fun hc => hc (by norm_num)
  have hts : text_to_speech c voice 1 (Except.error e)
      = Except.error "Failed to generate audio" := by
    rw [text_to_speech, if_neg h1, if_neg h2, if_neg h3]
  simp [audio_chat, chat_completion_result, hts]

/-- Witness for C2 at concrete runs: a fatal STT failure, the swallowed
interview-internal TTS failure, the propagated final TTS failure, and a
round trip whose message already carries audio. -/
theorem audio_round_trip_spec_witness :
    audio_chat (Except.error "stt dead") false (Except.ok "a") (Except.ok "b")
        "alloy" (Except.ok "u") = Except.error "stt dead"
    ∧ interview_chat_result (Except.ok "a") (Except.error "ttsfail")
        = Except.ok ⟨"a", none⟩
    ∧ audio_chat (Except.ok "q") false (Except.ok "a") (Except.ok "b")
        "alloy" (Except.error "ttsfail")
        = Except.error "Failed to generate audio"
    ∧ audio_chat (Except.ok "q") true (Except.ok "a") (Except.ok "url")
        "alloy" (Except.ok "u") = Except.ok ("q", ⟨"a", some "url"⟩) :=
  ⟨(audio_round_trip_spec (Except.ok "a") (Except.ok "b") (Except.ok "u")
      "alloy" "t" "c" "stt dead" false).1,
   (audio_round_trip_spec (Except.ok "a") (Except.ok "b") (Except.ok "u")
      "alloy" "t" "a" "ttsfail" false).2.2.2.1,
   (audio_round_trip_spec (Except.ok "a") (Except.ok "b") (Except.ok "u")
      "alloy" "q" "a" "ttsfail" false).2.2.2.2.1 (by decide) (by decide),
   (audio_round_trip_spec (Except.ok "a") (Except.ok "b") (Except.ok "u")
      "alloy" "q" "a" "x" true).2.2.2.2.2⟩

end ToeAI
